import Mathlib

/-!
Shallow embedding of the Health-Planner duplicate-detection / versioned-update
workflow (React + Firestore frontend) and proofs about its specification.

Sources embedded:
  - src/frontend/src/utils/validation.ts      (field validators)
  - src/frontend/src/components/OrderEntry.tsx (inline validateField,
    checkDuplicates, checkForExactDuplicate, handleSubmit, submitOrder,
    updatePatientMaster, handleSubmitUpdate)
  - src/frontend/src/components/PharmacistReview.tsx (fetchPendingOrders,
    handleSubmitFeedback, handleAcceptImprovedPlan)
  - src/frontend/src/components/ExportData.tsx (handleExport filtering)

JavaScript strings are modelled as Lean `String` (a list of Unicode scalar
values; the source only manipulates BMP text).  Firestore timestamps are
modelled as `Nat` milliseconds on a single linear clock (the browser session
is taken to run in UTC).  A Firestore collection is a list of
(document id, document) pairs in the order the store returns them;
`docs[0]` is the head of the filtered list.
-/

/-- Characters matched by JavaScript `\s` (and removed by `String.trim`). -/
def jsIsWhitespace (c : Char) : Bool :=
  c == ' ' || c == '\t' || c == '\n' || c == '\r' || c == '\x0b' || c == '\x0c' ||
  c == '\u00A0' || c == '\u1680' || ('\u2000' ≤ c && c ≤ '\u200A') ||
  c == '\u2028' || c == '\u2029' || c == '\u202F' || c == '\u205F' ||
  c == '\u3000' || c == '\uFEFF'

/-- JavaScript `String.prototype.trim`: strip whitespace from both ends. -/
def jsTrim (s : String) : String :=
  ⟨((s.data.dropWhile jsIsWhitespace).reverse.dropWhile jsIsWhitespace).reverse⟩

/-- JavaScript `String.prototype.toLowerCase`, restricted to the ASCII letters
the embedded scenarios exercise. -/
def jsToLower (s : String) : String :=
  ⟨s.data.map Char.toLower⟩

/-- Membership of `needle` as a contiguous run of `hay`. -/
def isInfixOfB (needle : List Char) : List Char → Bool
  | [] => needle.isEmpty
  | c :: cs => needle.isPrefixOf (c :: cs) || isInfixOfB needle cs

/-- JavaScript `hay.includes(needle)`. -/
def jsIncludes (hay needle : String) : Bool :=
  isInfixOfB needle.data hay.data

/-- Regex class `[A-Za-z]`. -/
def isAsciiLetter (c : Char) : Bool :=
  ('A' ≤ c && c ≤ 'Z') || ('a' ≤ c && c ≤ 'z')

/-- Regex class `[0-9]` (JavaScript `\d`). -/
def isDigitChar (c : Char) : Bool :=
  '0' ≤ c && c ≤ '9'

/-- Regex class `[A-Z]`. -/
def isAsciiUpper (c : Char) : Bool :=
  'A' ≤ c && c ≤ 'Z'

/-- Regex class `[À-ÿ]`: the Latin-1 code points U+00C0 through U+00FF.
Note this range contains the two non-letter symbols `×` (U+00D7) and
`÷` (U+00F7). -/
def isLatin1Block (c : Char) : Bool :=
  'À' ≤ c && c ≤ 'ÿ'

/-- The string matches `^[0-9]{n}$`. -/
def digitsLen (n : Nat) (s : String) : Bool :=
  s.length == n && s.data.all isDigitChar

/-- Tail of the ICD-10 regex after the first three characters:
`\.?[0-9A-Z]*`, with `cls` the trailing character class. -/
def icdRest (cls : Char → Bool) : List Char → Bool
  | '.' :: rest => rest.all cls
  | rest => rest.all cls

/-- The string matches `^[A-Z][0-9]{2}\.?[0-9A-Z]*$` (case-sensitive form
used by `validateField` in OrderEntry.tsx). -/
def icdStrict (s : String) : Bool :=
  match s.data with
  | c0 :: c1 :: c2 :: rest =>
    isAsciiUpper c0 && isDigitChar c1 && isDigitChar c2 &&
    icdRest (fun c => isDigitChar c || isAsciiUpper c) rest
  | _ => false

/-- The string matches `/^[A-Z][0-9]{2}\.?[0-9A-Z]*$/i` (case-insensitive form
used by `validateICD10` in validation.ts). -/
def icdCaseInsensitive (s : String) : Bool :=
  match s.data with
  | c0 :: c1 :: c2 :: rest =>
    isAsciiLetter c0 && isDigitChar c1 && isDigitChar c2 &&
    icdRest (fun c => isDigitChar c || isAsciiLetter c) rest
  | _ => false

/-- Character class of the validation.ts name regex `[a-zA-ZÀ-ÿ\s'-]`. -/
def latin1NameChar (c : Char) : Bool :=
  isAsciiLetter c || isLatin1Block c || jsIsWhitespace c || c == '-' || c == '\''

/-- validation.ts `validateMRN`. -/
def validateMRN (s : String) : Bool :=
  if s.isEmpty then false else digitsLen 6 (jsTrim s)

/-- validation.ts `validateNPI`. -/
def validateNPI (s : String) : Bool :=
  if s.isEmpty then false else digitsLen 10 (jsTrim s)

/-- validation.ts `validateICD10`. -/
def validateICD10 (s : String) : Bool :=
  if s.isEmpty then false else icdCaseInsensitive (jsTrim s)

/-- validation.ts `validateName`: trims, rejects the empty result, then tests
`/^[a-zA-ZÀ-ÿ\s'-]+$/` and `!/\d/` on the trimmed value. -/
def validateName (s : String) : Bool :=
  if s.isEmpty then false
  else
    let t := jsTrim s
    if t.isEmpty then false
    else t.data.all latin1NameChar && !(t.data.any isDigitChar)

/-- validation.ts `validateRequiredField`. -/
def validateRequiredField (s : String) : Bool :=
  !s.isEmpty && !(jsTrim s).isEmpty

/-- The in-progress order form (types/index.ts `FormData`). -/
structure FormData where
  patientFirstName : String
  patientLastName : String
  patientMRN : String
  primaryDiagnosis : String
  referringProvider : String
  providerNPI : String
  medicationName : String
  additionalDiagnoses : List String
  medicationHistory : List String
  patientRecords : String
deriving DecidableEq

/-- validation.ts `validateAllFields`: field-name to first-error mapping,
represented as an association list in the order the source assigns keys. -/
def validateAllFields (f : FormData) : List (String × String) :=
  (if !validateRequiredField f.patientFirstName then
     [("patientFirstName", "First name is required")]
   else if !validateName f.patientFirstName then
     [("patientFirstName", "Invalid name format")]
   else []) ++
  (if !validateRequiredField f.patientLastName then
     [("patientLastName", "Last name is required")]
   else if !validateName f.patientLastName then
     [("patientLastName", "Invalid name format")]
   else []) ++
  (if !validateRequiredField f.patientMRN then
     [("patientMRN", "MRN is required")]
   else if !validateMRN f.patientMRN then
     [("patientMRN", "Must be exactly 6 digits")]
   else []) ++
  (if !validateRequiredField f.primaryDiagnosis then
     [("primaryDiagnosis", "Primary diagnosis is required")]
   else if !validateICD10 f.primaryDiagnosis then
     [("primaryDiagnosis", "Invalid ICD-10 format")]
   else []) ++
  (if !validateRequiredField f.providerNPI then
     [("providerNPI", "Provider NPI is required")]
   else if !validateNPI f.providerNPI then
     [("providerNPI", "Must be exactly 10 digits")]
   else []) ++
  (if !validateRequiredField f.referringProvider then
     [("referringProvider", "Referring provider is required")]
   else []) ++
  (if !validateRequiredField f.medicationName then
     [("medicationName", "Medication name is required")]
   else []) ++
  (if !validateRequiredField f.patientRecords then
     [("patientRecords", "Patient records are required")]
   else [])

/-- Three-valued approval status of an order (types/index.ts). -/
inductive ApprovalStatus where
  | pending
  | correctionsPending
  | approved
deriving DecidableEq

/-- One snapshot of the four content fields, appended to `history` before an
update overwrites them (OrderEntry.tsx `historyEntry`). -/
structure HistoryEntry where
  timestamp : Nat
  additionalDiagnoses : List String
  medicationHistory : List String
  patientRecords : String
  carePlan : String
deriving DecidableEq

/-- A pharmacist feedback item (types/index.ts `PharmacistFeedback`).
Optional text fields are `none` when the form left them empty (the source
maps empty strings to `undefined` before storing). -/
structure Feedback where
  feedbackId : String
  timestamp : Nat
  pharmacistName : String
  feedbackType : String
  sectionName : String
  originalText : Option String
  correctedText : Option String
  comment : Option String
  approved : Bool
deriving DecidableEq

/-- A correction-history entry (types/index.ts `CorrectionHistory`). -/
structure CorrectionEntry where
  timestamp : Nat
  feedbackId : String
  pharmacistName : String
  sectionName : String
  change : String
  before : Option String
  after : Option String
deriving DecidableEq

/-- A stored order document.  `lastUpdated` and `approvalStatus` are `none`
when the document was written without those fields; empty lists model absent
list fields (the readers guard them with `|| []`). -/
structure OrderDoc where
  patientFirstName : String
  patientLastName : String
  patientMRN : String
  primaryDiagnosis : String
  referringProvider : String
  providerNPI : String
  medicationName : String
  additionalDiagnoses : List String
  medicationHistory : List String
  patientRecords : String
  carePlan : String
  timestamp : Nat
  lastUpdated : Option Nat
  approvalStatus : Option ApprovalStatus
  pharmacistFeedback : List Feedback
  correctionHistory : List CorrectionEntry
  history : List HistoryEntry
deriving DecidableEq

/-- A patient master record. -/
structure PatientDoc where
  mrn : String
  firstName : String
  lastName : String
  lastUpdated : Nat
  totalOrders : Nat
deriving DecidableEq

/-- A provider record.  `name`, `npi` and `firstOrderDate` are optional
because `submitOrder` can write a provider document carrying only an
`orderCount` field. -/
structure ProviderDoc where
  name : Option String
  npi : Option String
  firstOrderDate : Option Nat
  orderCount : Nat
deriving DecidableEq

/-- The document store: three collections of (document id, document) pairs
plus a counter supplying fresh ids for `addDoc`. -/
structure Store where
  orders : List (Nat × OrderDoc)
  patients : List (Nat × PatientDoc)
  providers : List (Nat × ProviderDoc)
  nextId : Nat
deriving DecidableEq

/-- Firestore `addDoc` on the orders collection. -/
def addOrder (st : Store) (d : OrderDoc) : Store :=
  { st with orders := st.orders ++ [(st.nextId, d)], nextId := st.nextId + 1 }

/-- Firestore `addDoc` on the patients collection. -/
def addPatient (st : Store) (d : PatientDoc) : Store :=
  { st with patients := st.patients ++ [(st.nextId, d)], nextId := st.nextId + 1 }

/-- Firestore `addDoc` on the providers collection. -/
def addProvider (st : Store) (d : ProviderDoc) : Store :=
  { st with providers := st.providers ++ [(st.nextId, d)], nextId := st.nextId + 1 }

/-- Firestore `updateDoc` on the order document with id `i`. -/
def updOrders (st : Store) (i : Nat) (g : OrderDoc → OrderDoc) : Store :=
  { st with orders := st.orders.map fun od => if od.1 == i then (od.1, g od.2) else od }

/-- Read the order document with id `i` (head of the id-filtered list). -/
def findOrder (st : Store) (i : Nat) : Option OrderDoc :=
  ((st.orders.filter fun od => od.1 == i).head?).map (·.2)

/-- A duplicate-detector item (types/index.ts `Warning`). -/
inductive WarnType where
  | patient
  | order
  | provider
deriving DecidableEq

/-- Severity of a duplicate-detector item: `error` blocks submission,
`warning` requires confirmation. -/
inductive Severity where
  | error
  | warning
deriving DecidableEq

/-- An entry of the duplicate detector's output list. -/
structure Warning where
  type : WarnType
  severity : Severity
  message : String
deriving DecidableEq

/-- JavaScript `Date.prototype.toLocaleDateString`, modelled at day
granularity: two timestamps render equal exactly when they fall on the same
(UTC) day. -/
def toLocaleDateString (t : Nat) : String :=
  toString (t / 86400000)

/-- The name regex of OrderEntry.tsx `validateField`:
`/^[A-Za-z\s'-]+$/`, tested on the raw (untrimmed) value. -/
def inlineNameOk (s : String) : Bool :=
  !s.data.isEmpty &&
  s.data.all fun c => isAsciiLetter c || jsIsWhitespace c || c == '\'' || c == '-'

/-- OrderEntry.tsx `validateField`: returns the error message for one field,
or the empty string when the field passes.  The required check trims the
value; the shape regexes run on the raw value, and the ICD-10 regex here is
case-sensitive (unlike validation.ts `validateICD10`). -/
def validateField (name value : String) : String :=
  if (jsTrim value).isEmpty then "This field is required"
  else if (name == "patientFirstName" || name == "patientLastName") && !inlineNameOk value then
    "Name must contain only letters, spaces, hyphens, or apostrophes"
  else if name == "patientMRN" && !digitsLen 6 value then
    "Must be exactly 6 digits"
  else if name == "primaryDiagnosis" && !icdStrict value then
    "Invalid ICD-10 format"
  else if name == "providerNPI" && !digitsLen 10 value then
    "Must be exactly 10 digits"
  else ""

/-- The required-field list iterated by OrderEntry.tsx `handleSubmit`. -/
def requiredFields : List String :=
  ["patientFirstName", "patientLastName", "patientMRN", "primaryDiagnosis",
   "referringProvider", "providerNPI", "medicationName", "patientRecords"]

/-- Field access `formData[field]` for the string-valued form fields. -/
def fieldValue (f : FormData) (name : String) : String :=
  if name == "patientFirstName" then f.patientFirstName
  else if name == "patientLastName" then f.patientLastName
  else if name == "patientMRN" then f.patientMRN
  else if name == "primaryDiagnosis" then f.primaryDiagnosis
  else if name == "referringProvider" then f.referringProvider
  else if name == "providerNPI" then f.providerNPI
  else if name == "medicationName" then f.medicationName
  else if name == "patientRecords" then f.patientRecords
  else ""

/-- The `newErrors` mapping `handleSubmit` collects before submitting. -/
def submitValidationErrors (f : FormData) : List (String × String) :=
  requiredFields.filterMap fun n =>
    let e := validateField n (fieldValue f n)
    if e == "" then none else some (n, e)

/-- Message of the MRN-to-identity blocking error. -/
def mrnMismatchMsg : String :=
  "MRN MISMATCH: This MRN is already registered to a different patient. Please verify the MRN is correct for this patient."

/-- Message of the identity-to-MRN blocking error. -/
def nameMismatchMsg : String :=
  "PATIENT NAME MISMATCH: This patient name is already registered with a different MRN. Please verify the patient information is correct."

/-- Message of the provider-name-to-NPI blocking error. -/
def npiMismatchMsg : String :=
  "NPI MISMATCH: This provider name is already registered with a different NPI. Please verify the NPI is correct for this provider."

/-- Message of the NPI-to-provider-name blocking error. -/
def providerNameMismatchMsg : String :=
  "PROVIDER NAME MISMATCH: This NPI is already registered to a different provider. Please verify the provider name is correct for this NPI."

/-- Message of the non-blocking exact-duplicate warning, naming the prior
order's date. -/
def dupWarningMessage (t : Nat) : String :=
  "POTENTIAL DUPLICATE: A similar order exists from " ++ toLocaleDateString t ++
  ". You'll be prompted to update or create new when submitting."

/-- OrderEntry.tsx `checkDuplicates`.  Returns `none` when the source's
`try` block throws (reading `.toLowerCase()` of an absent provider name);
the component then leaves the previous warnings state in place.  Guards
mirror the source's truthiness and length tests; every store query takes
`docs[0]` of the filtered collection except the exact-duplicate check,
which searches the whole snapshot with `find`. -/
def checkDuplicates (f : FormData) (st : Store) : Option (List Warning) :=
  let block1 : List Warning :=
    if !f.patientMRN.isEmpty && f.patientMRN.length == 6 &&
       !f.patientFirstName.isEmpty && !f.patientLastName.isEmpty then
      (match (st.orders.filter fun od => od.2.patientMRN == f.patientMRN).head? with
       | some od =>
         if jsToLower od.2.patientFirstName != jsToLower f.patientFirstName ||
            jsToLower od.2.patientLastName != jsToLower f.patientLastName then
           [⟨WarnType.patient, Severity.error, mrnMismatchMsg⟩]
         else []
       | none => []) ++
      (match (st.orders.filter fun od =>
                od.2.patientFirstName == f.patientFirstName &&
                od.2.patientLastName == f.patientLastName).head? with
       | some od =>
         if od.2.patientMRN != f.patientMRN then
           [⟨WarnType.patient, Severity.error, nameMismatchMsg⟩]
         else []
       | none => [])
    else []
  let block2 : List Warning :=
    if !f.patientMRN.isEmpty && !f.medicationName.isEmpty &&
       !f.primaryDiagnosis.isEmpty && !f.providerNPI.isEmpty &&
       f.patientMRN.length == 6 && f.providerNPI.length == 10 then
      match (st.orders.filter fun od =>
               od.2.patientMRN == f.patientMRN &&
               od.2.medicationName == f.medicationName).find? (fun od =>
               od.2.primaryDiagnosis == f.primaryDiagnosis &&
               od.2.providerNPI == f.providerNPI) with
      | some od => [⟨WarnType.order, Severity.warning, dupWarningMessage od.2.timestamp⟩]
      | none => []
    else []
  if !f.referringProvider.isEmpty && !f.providerNPI.isEmpty && f.providerNPI.length == 10 then
    let w4 : List Warning :=
      match (st.providers.filter fun p => p.2.name == some f.referringProvider).head? with
      | some p =>
        if p.2.npi != some f.providerNPI then
          [⟨WarnType.provider, Severity.error, npiMismatchMsg⟩]
        else []
      | none => []
    match (st.providers.filter fun p => p.2.npi == some f.providerNPI).head? with
    | some p =>
      match p.2.name with
      | none => none
      | some nm =>
        some (block1 ++ block2 ++ w4 ++
          (if jsToLower nm != jsToLower f.referringProvider then
             [⟨WarnType.provider, Severity.error, providerNameMismatchMsg⟩]
           else []))
    | none => some (block1 ++ block2 ++ w4)
  else some (block1 ++ block2)

/-- OrderEntry.tsx `checkForExactDuplicate`: first order matching all four
key fields, searched as in the source (query on MRN + medication, then
`find` on diagnosis + NPI). -/
def checkForExactDuplicate (f : FormData) (st : Store) : Option (Nat × OrderDoc) :=
  (st.orders.filter fun od =>
     od.2.patientMRN == f.patientMRN &&
     od.2.medicationName == f.medicationName).find? fun od =>
    od.2.primaryDiagnosis == f.primaryDiagnosis &&
    od.2.providerNPI == f.providerNPI

/-- The order document `submitOrder` writes:
`{...formData, carePlan, timestamp: serverTimestamp(), history: []}`.
The document carries no `lastUpdated`, `approvalStatus`,
`pharmacistFeedback` or `correctionHistory` fields. -/
def newOrderDoc (f : FormData) (plan : String) (now : Nat) : OrderDoc :=
  { patientFirstName := f.patientFirstName
    patientLastName := f.patientLastName
    patientMRN := f.patientMRN
    primaryDiagnosis := f.primaryDiagnosis
    referringProvider := f.referringProvider
    providerNPI := f.providerNPI
    medicationName := f.medicationName
    additionalDiagnoses := f.additionalDiagnoses
    medicationHistory := f.medicationHistory
    patientRecords := f.patientRecords
    carePlan := plan
    timestamp := now
    lastUpdated := none
    approvalStatus := none
    pharmacistFeedback := []
    correctionHistory := []
    history := [] }

/-- OrderEntry.tsx `updatePatientMaster`: create the patient master record
with `totalOrders: 1`, or patch `docs[0]` of the MRN query with
`totalOrders: increment(1)`. -/
def updatePatientMaster (st : Store) (f : FormData) (now : Nat) : Store :=
  match (st.patients.filter fun p => p.2.mrn == f.patientMRN).head? with
  | none =>
    addPatient st
      { mrn := f.patientMRN, firstName := f.patientFirstName,
        lastName := f.patientLastName, lastUpdated := now, totalOrders := 1 }
  | some pd =>
    { st with patients := st.patients.map fun p =>
        if p.1 == pd.1 then
          (p.1, { p.2 with lastUpdated := now, totalOrders := p.2.totalOrders + 1 })
        else p }

/-- OrderEntry.tsx `submitOrder`, after a successful care-plan generation:
add the order, upsert the patient master, then handle the provider.  When a
provider with the submitted NPI already exists the source executes
`addDoc(collection(db, 'providers'), { orderCount: increment(1) })`: a brand
new provider document holding only an `orderCount` field (which
`increment(1)` initialises to 1); the matched document `docs[0]` is bound to
an unused variable and never updated. -/
def submitOrder (st : Store) (f : FormData) (plan : String) (now : Nat) : Store :=
  let st1 := addOrder st (newOrderDoc f plan now)
  let st2 := updatePatientMaster st1 f now
  if (st2.providers.filter fun p => p.2.npi == some f.providerNPI).isEmpty then
    addProvider st2
      { name := some f.referringProvider, npi := some f.providerNPI,
        firstOrderDate := some now, orderCount := 1 }
  else
    addProvider st2
      { name := none, npi := none, firstOrderDate := none, orderCount := 1 }

/-- The three editable fields of the update dialog (comma-separated strings
for the two list fields). -/
structure UpdateFields where
  additionalDiagnoses : String
  medicationHistory : String
  patientRecords : String
deriving DecidableEq

/-- `value.split(',').map(s => s.trim()).filter(s => s)` from the source. -/
def splitCSV (s : String) : List String :=
  ((s.splitOn ",").map jsTrim).filter fun x => !x.isEmpty

/-- The history entry `handleSubmitUpdate` builds from the duplicate's
stored data before overwriting it. -/
def snapshotOf (d : OrderDoc) (now : Nat) : HistoryEntry :=
  { timestamp := now
    additionalDiagnoses := d.additionalDiagnoses
    medicationHistory := d.medicationHistory
    patientRecords := d.patientRecords
    carePlan := d.carePlan }

/-- The `updateDoc` payload of `handleSubmitUpdate` applied to the stored
document `d`: overwrite the four content fields and the care plan, stamp
`lastUpdated`, and append the snapshot of `dupData` to `dupData`'s history
list. -/
def applyUpdate (d : OrderDoc) (u : UpdateFields) (dupData : OrderDoc)
    (p : String) (now : Nat) : OrderDoc :=
  { d with
    additionalDiagnoses := splitCSV u.additionalDiagnoses
    medicationHistory := splitCSV u.medicationHistory
    patientRecords := u.patientRecords
    carePlan := p
    lastUpdated := some now
    history := dupData.history ++ [snapshotOf dupData now] }

/-- OrderEntry.tsx `handleSubmitUpdate`.  `plan` is the result of the
care-plan generation call: `none` models a thrown/failed call, in which case
the handler's `catch` runs and nothing is written to the store. -/
def handleSubmitUpdate (st : Store) (dup : Nat × OrderDoc) (f : FormData)
    (u : UpdateFields) (plan : Option String) (now : Nat) : Store :=
  match plan with
  | none => st
  | some p =>
    let st1 := updOrders st dup.1 fun d => applyUpdate d u dup.2 p now
    updatePatientMaster st1 f now

/-- Outcome of one press of the submit button. -/
inductive SubmitOutcome where
  | validationError (errors : List (String × String))
  | blocked (blocking : List Warning)
  | duplicatePrompt (dup : Nat × OrderDoc)
  | proceeded (newStore : Store)
  | planFailed
deriving DecidableEq

/-- OrderEntry.tsx `handleSubmit`: validate every required field, abort on
any error; abort on any blocking (severity `error`) entry of the current
warnings state; show the duplicate prompt when an exact four-field duplicate
exists; otherwise run `submitOrder` (which fails wholesale when the
care-plan call fails). -/
def handleSubmit (f : FormData) (warnings : List Warning) (st : Store)
    (plan : Option String) (now : Nat) : SubmitOutcome :=
  let errs := submitValidationErrors f
  if !errs.isEmpty then
    SubmitOutcome.validationError errs
  else
    let blocking := warnings.filter fun w => w.severity == Severity.error
    if !blocking.isEmpty then
      SubmitOutcome.blocked blocking
    else
      match checkForExactDuplicate f st with
      | some dup => SubmitOutcome.duplicatePrompt dup
      | none =>
        match plan with
        | some p => SubmitOutcome.proceeded (submitOrder st f p now)
        | none => SubmitOutcome.planFailed

/-- PharmacistReview.tsx: the human-readable description synthesised for one
feedback item. -/
def changeDescription (fb : Feedback) : String :=
  match fb.correctedText with
  | some _ => "Updated " ++ fb.sectionName ++ ": " ++ fb.comment.getD "Manual correction"
  | none =>
    match fb.comment with
    | some c => c
    | none => fb.feedbackType ++ " on " ++ fb.sectionName

/-- PharmacistReview.tsx: the correction-history entry synthesised for one
feedback item. -/
def correctionEntryOf (fb : Feedback) : CorrectionEntry :=
  { timestamp := fb.timestamp
    feedbackId := fb.feedbackId
    pharmacistName := fb.pharmacistName
    sectionName := fb.sectionName
    change := changeDescription fb
    before := fb.originalText
    after := fb.correctedText }

/-- The `updateDoc` payload of `handleSubmitFeedback` applied to the stored
document: derive the aggregate status from the approval flags, store the
feedback list, and append the synthesised entries to the selected order's
correction history. -/
def feedbackUpdate (sel : Nat × OrderDoc) (fb : List Feedback) (now : Nat)
    (d : OrderDoc) : OrderDoc :=
  let allApproved := fb.all (·.approved)
  let status := if allApproved then ApprovalStatus.approved
                else ApprovalStatus.correctionsPending
  { d with
    approvalStatus := some status
    pharmacistFeedback := fb
    correctionHistory := sel.2.correctionHistory ++ fb.map correctionEntryOf
    lastUpdated := some now }

/-- PharmacistReview.tsx `handleSubmitFeedback`: aborts (store unchanged)
without a pharmacist name or with an empty feedback list, else patches the
selected order. -/
def handleSubmitFeedback (st : Store) (sel : Nat × OrderDoc)
    (pharmacistName : String) (fb : List Feedback) (now : Nat) : Store :=
  if pharmacistName.isEmpty then st
  else if fb.isEmpty then st
  else updOrders st sel.1 (feedbackUpdate sel fb now)

/-- The `updateDoc` payload of `handleAcceptImprovedPlan`: persist the
candidate plan and set the status to approved. -/
def acceptUpdate (improvedPlan : String) (fb : List Feedback) (now : Nat)
    (d : OrderDoc) : OrderDoc :=
  { d with
    carePlan := improvedPlan
    pharmacistFeedback := fb
    approvalStatus := some ApprovalStatus.approved
    lastUpdated := some now }

/-- PharmacistReview.tsx `handleAcceptImprovedPlan` (guards on a selected
order and a present candidate plan are modelled by the arguments). -/
def handleAcceptImprovedPlan (st : Store) (sel : Nat × OrderDoc)
    (improvedPlan : String) (fb : List Feedback) (now : Nat) : Store :=
  updOrders st sel.1 (acceptUpdate improvedPlan fb now)

/-- The predicate of the Firestore query
`where('approvalStatus', '!=', 'approved')`.  Firestore inequality filters
match only documents in which the queried field is present, so orders
written without an `approvalStatus` field are not returned. -/
def pendingQuery (d : OrderDoc) : Bool :=
  match d.approvalStatus with
  | none => false
  | some s => s != ApprovalStatus.approved

/-- PharmacistReview.tsx `fetchPendingOrders`. -/
def fetchPendingOrders (st : Store) : List (Nat × OrderDoc) :=
  st.orders.filter fun od => pendingQuery od.2

/-- Milliseconds per calendar day. -/
def msPerDay : Nat := 86400000

/-- Timestamp of `d + 'T00:00:00'` for day index `d`. -/
def dayStartMs (d : Nat) : Nat := d * msPerDay

/-- Timestamp of `d + 'T23:59:59'` for day index `d`: the last whole second
of the day, 999 ms short of the day's end. -/
def endOfDayMs (d : Nat) : Nat := d * msPerDay + 86399000

/-- The export dialog's filter inputs.  A date input is `none` when blank;
the medication filter is the raw text-box string (blank means unset). -/
structure ExportFilters where
  startDate : Option Nat
  endDate : Option Nat
  medFilter : String
deriving DecidableEq

/-- ExportData.tsx `handleExport`, filtering stage: fetch every order, then
apply the start-date, end-date and medication-substring filters in turn,
each only when its input is set. -/
def exportFilter (fl : ExportFilters) (orders : List (Nat × OrderDoc)) :
    List (Nat × OrderDoc) :=
  let o1 := match fl.startDate with
    | none => orders
    | some d => orders.filter fun od => dayStartMs d ≤ od.2.timestamp
  let o2 := match fl.endDate with
    | none => o1
    | some d => o1.filter fun od => od.2.timestamp ≤ endOfDayMs d
  if !fl.medFilter.isEmpty && !(jsTrim fl.medFilter).isEmpty then
    o2.filter fun od => jsIncludes (jsToLower od.2.medicationName) (jsToLower fl.medFilter)
  else o2

/-- Letters of the Latin-1 block: the range U+00C0 through U+00FF minus its
two non-letter code points `×` (U+00D7) and `÷` (U+00F7). -/
def isAccentedLatinLetter (c : Char) : Bool :=
  isLatin1Block c && c != '×' && c != '÷'

/-- Character allowed by the specification's wording for names: a letter
(ASCII or accented Latin), a space, a hyphen or an apostrophe. -/
def specNameChar (c : Char) : Bool :=
  isAsciiLetter c || isAccentedLatinLetter c || jsIsWhitespace c || c == '-' || c == '\''

/-- The specification's name predicate, written from its words for
comparison with `validateName`: trimmed value non-empty, containing only
letters (including accented Latin letters), spaces, hyphens and apostrophes,
and containing no digit. -/
def specValidateName (s : String) : Bool :=
  let t := jsTrim s
  !t.data.isEmpty && t.data.all specNameChar && !(t.data.any isDigitChar)

/-- A fully valid submission used by the concrete scenarios. -/
def baseForm : FormData :=
  { patientFirstName := "John"
    patientLastName := "Doe"
    patientMRN := "123456"
    primaryDiagnosis := "G70.0"
    referringProvider := "Dr Smith"
    providerNPI := "1234567890"
    medicationName := "Privigen"
    additionalDiagnoses := []
    medicationHistory := []
    patientRecords := "Stable on current regimen" }

/-- The valid submission with an accented patient first name. -/
def joseForm : FormData := { baseForm with patientFirstName := "José" }

/-- The valid submission with a lowercase diagnosis code. -/
def lowerIcdForm : FormData := { baseForm with primaryDiagnosis := "g70.0" }

/-- A store holding one order that matches `baseForm` on all four key
fields. -/
def dupStore : Store :=
  { orders := [(0, newOrderDoc baseForm "Plan A" 0)]
    patients := []
    providers := []
    nextId := 1 }

/-- A store whose providers collection already holds a record with
`baseForm`'s NPI and an order count of 3. -/
def provStore : Store :=
  { orders := []
    patients := []
    providers := [(0, { name := some "Dr Smith", npi := some "1234567890",
                        firstOrderDate := some 5, orderCount := 3 })]
    nextId := 1 }

/-- Orders for the docs[0] scenarios: the first order with MRN 123456 agrees
with `baseForm` on the patient name, a later one does not; the first order
with name John Doe agrees on the MRN, a later one does not.  Medication
differs from `baseForm` so the exact-duplicate check stays silent. -/
def docs0Orders : List (Nat × OrderDoc) :=
  [(0, newOrderDoc { baseForm with medicationName := "IVIG" } "p0" 0),
   (1, newOrderDoc { baseForm with patientFirstName := "Jane", patientLastName := "Roe", medicationName := "IVIG" } "p1" 1),
   (2, newOrderDoc { baseForm with patientMRN := "654321", medicationName := "IVIG" } "p2" 2)]

/-- Providers for the docs[0] scenarios: the first record named Dr Smith
carries `baseForm`'s NPI, a later one does not; the first record with that
NPI is named Dr Smith, a later one is not. -/
def docs0Providers : List (Nat × ProviderDoc) :=
  [(10, { name := some "Dr Smith", npi := some "1234567890",
          firstOrderDate := some 0, orderCount := 1 }),
   (11, { name := some "Dr Smith", npi := some "9999999999",
          firstOrderDate := some 0, orderCount := 1 }),
   (12, { name := some "Dr Jones", npi := some "1234567890",
          firstOrderDate := some 0, orderCount := 1 })]

/-- Store in which, for each of the four mismatch checks, docs[0] of the
queried collection agrees with `baseForm` while a later document
conflicts. -/
def docs0Store : Store :=
  { orders := docs0Orders, patients := [], providers := docs0Providers, nextId := 20 }

/-- The same documents with each collection reordered so that a conflicting
document comes first. -/
def docs0StoreRev : Store :=
  { orders := docs0Orders.drop 1 ++ docs0Orders.take 1
    patients := []
    providers := docs0Providers.drop 1 ++ docs0Providers.take 1
    nextId := 20 }

/-- Two feedback items for the review scenario, one not approved. -/
def fbNotApproved : Feedback :=
  { feedbackId := "feedback_1", timestamp := 5, pharmacistName := "Alice",
    feedbackType := "correction", sectionName := "GOALS",
    originalText := some "old", correctedText := some "new",
    comment := none, approved := false }

/-- A second feedback item, approved. -/
def fbApproved : Feedback :=
  { feedbackId := "feedback_2", timestamp := 6, pharmacistName := "Alice",
    feedbackType := "approval", sectionName := "MONITORING PLAN",
    originalText := none, correctedText := none,
    comment := some "Looks right", approved := true }

/-- Update-dialog inputs for the versioned-update scenario. -/
def sampleUpdate : UpdateFields :=
  { additionalDiagnoses := "I10, K21.9"
    medicationHistory := ""
    patientRecords := "Updated clinical notes" }

theorem string_isEmpty_data (t : String) : t.isEmpty = true ↔ t.data = [] := by
  rw [String.isEmpty_iff, String.ext_iff]

theorem filter_map_update {α : Type} (l : List (Nat × α)) (i : Nat) (g : α → α) :
    (l.map fun od => if od.1 == i then (od.1, g od.2) else od).filter (fun od => od.1 == i) =
      (l.filter fun od => od.1 == i).map fun od => (od.1, g od.2) := by
  induction l with
  | nil => rfl
  | cons a t ih =>
    simp only [List.map_cons, List.filter_cons]
    by_cases h : a.1 = i
    · simp [h]
      simpa using ih
    · simp [h]
      simpa using ih

theorem findOrder_updOrders (st : Store) (i : Nat) (g : OrderDoc → OrderDoc) :
    findOrder (updOrders st i g) i = (findOrder st i).map g := by
  unfold findOrder updOrders
  simp only
  rw [filter_map_update, List.head?_map]
  cases (st.orders.filter fun od => od.1 == i).head? <;> rfl

theorem updatePatientMaster_orders (st : Store) (f : FormData) (now : Nat) :
    (updatePatientMaster st f now).orders = st.orders := by
  unfold updatePatientMaster
  cases (st.patients.filter fun p => p.2.mrn == f.patientMRN).head? <;>
    simp [addPatient]

theorem findOrder_updatePatientMaster (st : Store) (f : FormData) (now i : Nat) :
    findOrder (updatePatientMaster st f now) i = findOrder st i := by
  unfold findOrder
  rw [updatePatientMaster_orders]

/-- C3: when the care-plan generation call fails during a confirmed update,
`handleSubmitUpdate` leaves the store completely unchanged — neither the
history snapshot nor the new content fields nor a care plan is persisted. -/
theorem c3_plan_failure_leaves_store_unchanged (st : Store) (dup : Nat × OrderDoc)
    (f : FormData) (u : UpdateFields) (now : Nat) :
    handleSubmitUpdate st dup f u none now = st := rfl

/-- C1: with no provider for the NPI the code creates the record with order
count 1, but when a provider with the submitted NPI already exists,
`submitOrder` adds a second provider document (holding only an order count
of 1, with no name or NPI) and leaves the existing record's order count at
3 instead of incrementing it. -/
theorem c1_provider_upsert_bug :
    ((submitOrder { orders := [], patients := [], providers := [], nextId := 0 }
        baseForm "plan" 1).providers.map fun p => p.2) =
      [{ name := some "Dr Smith", npi := some "1234567890",
         firstOrderDate := some 1, orderCount := 1 }] ∧
    (submitOrder provStore baseForm "plan" 99).providers.length = 2 ∧
    ((submitOrder provStore baseForm "plan" 99).providers.map fun p => p.2.orderCount) = [3, 1] ∧
    ((submitOrder provStore baseForm "plan" 99).providers.map fun p => p.2.npi) =
      [some "1234567890", none] := by
  decide

/-- C10: each of the four identity/NPI mismatch checks only consults docs[0]
of its query.  In `docs0Store` the first document of every queried key
agrees with the submission while a later document conflicts, and no blocking
error is emitted; reordering each collection so a conflicting document comes
first produces all four blocking errors. -/
theorem c10_checks_compare_only_first_document :
    checkDuplicates baseForm docs0Store = some [] ∧
    checkDuplicates baseForm docs0StoreRev = some
      [⟨WarnType.patient, Severity.error, mrnMismatchMsg⟩,
       ⟨WarnType.patient, Severity.error, nameMismatchMsg⟩,
       ⟨WarnType.provider, Severity.error, npiMismatchMsg⟩,
       ⟨WarnType.provider, Severity.error, providerNameMismatchMsg⟩] := by
  decide

/-- C7 counterexample: the multiplication sign U+00D7 lies inside the
regex range `À-ÿ`, so `validateName` accepts a string that is not made of
letters, spaces, hyphens and apostrophes. -/
theorem c7_counterexample :
    validateName "×" = true ∧ specValidateName "×" = false := by
  decide

/-- C8 counterexample: an order created at 23:59:59.500 of the end date lies
on the end date, yet the export filter (whose upper bound is the end date's
23:59:59.000) excludes it, so the end-date filter is not inclusive of the
whole end date. -/
theorem c8_counterexample :
    exportFilter ⟨none, some 0, ""⟩ [(0, newOrderDoc baseForm "p" 86399500)] = [] ∧
    dayStartMs 0 ≤ 86399500 ∧ 86399500 < dayStartMs 1 := by
  decide

/-- C2: a confirmed update appends exactly one history entry holding the
prior stored values of the four content fields (the previous history is kept
as an unchanged prefix), and afterwards the live clinical-record field
equals the newly submitted text. -/
theorem c2_update_appends_prior_snapshot (st : Store) (i : Nat) (d : OrderDoc)
    (f : FormData) (u : UpdateFields) (p : String) (now : Nat)
    (h : findOrder st i = some d) :
    ∃ d', findOrder (handleSubmitUpdate st (i, d) f u (some p) now) i = some d' ∧
      d'.history = d.history ++
        [{ timestamp := now, additionalDiagnoses := d.additionalDiagnoses,
           medicationHistory := d.medicationHistory,
           patientRecords := d.patientRecords, carePlan := d.carePlan }] ∧
      d'.patientRecords = u.patientRecords := by
  refine ⟨applyUpdate d u d p now, ?_, rfl, rfl⟩
  unfold handleSubmitUpdate
  rw [findOrder_updatePatientMaster, findOrder_updOrders, h]
  rfl

/-- Witness for C2 at a concrete store, update form and plan. -/
theorem c2_witness :
    ∃ d', findOrder (handleSubmitUpdate dupStore (0, newOrderDoc baseForm "Plan A" 0)
        baseForm sampleUpdate (some "Plan B") 50) 0 = some d' ∧
      d'.history = (newOrderDoc baseForm "Plan A" 0).history ++
        [{ timestamp := 50,
           additionalDiagnoses := (newOrderDoc baseForm "Plan A" 0).additionalDiagnoses,
           medicationHistory := (newOrderDoc baseForm "Plan A" 0).medicationHistory,
           patientRecords := (newOrderDoc baseForm "Plan A" 0).patientRecords,
           carePlan := (newOrderDoc baseForm "Plan A" 0).carePlan }] ∧
      d'.patientRecords = sampleUpdate.patientRecords :=
  c2_update_appends_prior_snapshot dupStore 0 (newOrderDoc baseForm "Plan A" 0)
    baseForm sampleUpdate "Plan B" 50 (by decide)

/-- C6: submitting a non-empty feedback list sets the order's approval
status to approved exactly when every item's approval flag is true, and to
corrections-pending when at least one flag is false. -/
theorem c6_feedback_aggregate_status (st : Store) (i : Nat) (d : OrderDoc)
    (nm : String) (fb : List Feedback) (now : Nat)
    (hnm : nm ≠ "") (hfb : fb ≠ []) (h : findOrder st i = some d) :
    ∃ d', findOrder (handleSubmitFeedback st (i, d) nm fb now) i = some d' ∧
      (d'.approvalStatus = some ApprovalStatus.approved ↔ ∀ x ∈ fb, x.approved = true) ∧
      ((∃ x ∈ fb, x.approved = false) → d'.approvalStatus = some ApprovalStatus.correctionsPending) := by
  have hnm' : nm.isEmpty = false := by
    rw [Bool.eq_false_iff]
    intro hh
    exact hnm ((String.isEmpty_iff nm).mp hh)
  have hfb' : fb.isEmpty = false := by
    rw [Bool.eq_false_iff]
    intro hh
    exact hfb ((List.isEmpty_iff).mp hh)
  refine ⟨feedbackUpdate (i, d) fb now d, ?_, ?_, ?_⟩
  · unfold handleSubmitFeedback
    rw [hnm', hfb']
    simp only [Bool.false_eq_true, if_false]
    rw [findOrder_updOrders, h]
    rfl
  · cases hall : fb.all (·.approved) with
    | true =>
      simp only [feedbackUpdate, hall, if_true]
      simpa using (List.all_eq_true.mp hall)
    | false =>
      simp only [feedbackUpdate, hall, Bool.false_eq_true, if_false]
      constructor
      · intro hcontra
        exact absurd hcontra (by simp)
      · intro hforall
        exact absurd (List.all_eq_true.mpr (by simpa using hforall)) (by simp [hall])
  · intro hex
    have hall : fb.all (·.approved) = false := by
      rcases hex with ⟨x, hx, hxf⟩
      rw [Bool.eq_false_iff]
      intro hh
      have := List.all_eq_true.mp hh x hx
      simp [hxf] at this
    simp [feedbackUpdate, hall]

/-- Witness for C6: two feedback items, one not approved, yield the
corrections-pending status. -/
theorem c6_witness :
    ∃ d', findOrder (handleSubmitFeedback dupStore (0, newOrderDoc baseForm "Plan A" 0)
        "Alice" [fbNotApproved, fbApproved] 9) 0 = some d' ∧
      (d'.approvalStatus = some ApprovalStatus.approved ↔
        ∀ x ∈ [fbNotApproved, fbApproved], x.approved = true) ∧
      ((∃ x ∈ [fbNotApproved, fbApproved], x.approved = false) →
        d'.approvalStatus = some ApprovalStatus.correctionsPending) :=
  c6_feedback_aggregate_status dupStore 0 (newOrderDoc baseForm "Plan A" 0)
    "Alice" [fbNotApproved, fbApproved] 9 (by decide) (by decide) (by decide)

/-- C9: orders created by the first-submission path carry an empty history
and no approval-status field; the update path never touches the status;
only the two review actions set a status (feedback submission one of
approved / corrections-pending, accepting an improved plan always
approved); and the pending listing's query matches exactly the orders whose
approval-status field is present and differs from approved (Firestore
inequality filters skip documents missing the field). -/
theorem c9_status_only_set_by_review :
    (∀ (f : FormData) (plan : String) (now : Nat),
       (newOrderDoc f plan now).history = [] ∧
       (newOrderDoc f plan now).approvalStatus = none) ∧
    (∀ (st : Store) (f : FormData) (plan : String) (now : Nat),
       (submitOrder st f plan now).orders = st.orders ++ [(st.nextId, newOrderDoc f plan now)]) ∧
    (∀ (d : OrderDoc) (u : UpdateFields) (dd : OrderDoc) (p : String) (now : Nat),
       (applyUpdate d u dd p now).approvalStatus = d.approvalStatus) ∧
    (∀ (sel : Nat × OrderDoc) (fb : List Feedback) (now : Nat) (d : OrderDoc),
       (feedbackUpdate sel fb now d).approvalStatus = some ApprovalStatus.approved ∨
       (feedbackUpdate sel fb now d).approvalStatus = some ApprovalStatus.correctionsPending) ∧
    (∀ (ip : String) (fb : List Feedback) (now : Nat) (d : OrderDoc),
       (acceptUpdate ip fb now d).approvalStatus = some ApprovalStatus.approved) ∧
    (∀ st : Store, fetchPendingOrders st = st.orders.filter fun od => pendingQuery od.2) ∧
    (∀ d : OrderDoc, pendingQuery d = true ↔
       ∃ s, d.approvalStatus = some s ∧ s ≠ ApprovalStatus.approved) := by
  refine ⟨fun f plan now => ⟨rfl, rfl⟩, ?_, fun d u dd p now => rfl, ?_, fun ip fb now d => rfl, fun st => rfl, ?_⟩
  · intro st f plan now
    unfold submitOrder
    dsimp only
    split <;> simp [addProvider, updatePatientMaster_orders, addOrder]
  · intro sel fb now d
    unfold feedbackUpdate
    by_cases h : fb.all (·.approved) = true
    · left
      simp [h]
    · right
      simp [Bool.eq_false_iff.mpr h]
  · intro d
    unfold pendingQuery
    cases h : d.approvalStatus with
    | none => simp [h]
    | some s =>
      simp only [h, Option.some.injEq]
      constructor
      · intro hs
        exact ⟨s, rfl, bne_iff_ne.mp hs⟩
      · rintro ⟨s', hs', hne⟩
        subst hs'
        exact bne_iff_ne.mpr hne

/-- C4 counterexample: both submissions are fully valid under the section
4.1 validators (empty error mapping from `validateAllFields`), yet
`handleSubmit` aborts each with a validation error — the accented name
because the inline name regex is ASCII-only, the lowercase diagnosis code
because the inline ICD-10 regex is case-sensitive. -/
theorem c4_counterexample :
    validateAllFields joseForm = [] ∧
    handleSubmit joseForm [] dupStore (some "plan") 0 =
      SubmitOutcome.validationError
        [("patientFirstName", "Name must contain only letters, spaces, hyphens, or apostrophes")] ∧
    validateAllFields lowerIcdForm = [] ∧
    handleSubmit lowerIcdForm [] dupStore (some "plan") 0 =
      SubmitOutcome.validationError [("primaryDiagnosis", "Invalid ICD-10 format")] := by
  decide

/-- C4 amended: the submit workflow aborts with a validation error exactly
when the inline `validateField` checks (stricter than section 4.1) report an
error on some required field; in particular the accented name and the
lowercase diagnosis code are rejected while their section 4.1 style
counterparts pass. -/
theorem c4_amended :
    (∀ (f : FormData) (ws : List Warning) (st : Store) (plan : Option String) (now : Nat),
       (∃ e, handleSubmit f ws st plan now = SubmitOutcome.validationError e) ↔
         submitValidationErrors f ≠ []) ∧
    validateField "patientFirstName" "José" ≠ "" ∧
    validateField "primaryDiagnosis" "g70.0" ≠ "" ∧
    validateField "patientFirstName" "O'Brien" = "" ∧
    validateField "primaryDiagnosis" "G70.0" = "" := by
  refine ⟨?_, by decide, by decide, by decide, by decide⟩
  intro f ws st plan now
  unfold handleSubmit
  dsimp only
  by_cases h : submitValidationErrors f = []
  · simp only [h, List.isEmpty_nil, Bool.not_true, Bool.false_eq_true, if_false]
    constructor
    · rintro ⟨e, he⟩
      split at he
      · exact absurd he (by simp)
      · split at he
        · exact absurd he (by simp)
        · split at he <;> exact absurd he (by simp)
    · intro hne
      exact absurd rfl hne
  · have h' : (submitValidationErrors f).isEmpty = false := by
      rw [Bool.eq_false_iff]
      intro hh
      exact h (List.isEmpty_iff.mp hh)
    simp only [h', Bool.not_false, if_true]
    exact ⟨fun _ => h, fun _ => ⟨submitValidationErrors f, rfl⟩⟩

/-- C7 amended: `validateName` accepts a string exactly when its trimmed
value is non-empty, every character is an ASCII letter, a character of the
Latin-1 block U+00C0 to U+00FF (which also admits the two non-letter symbols
of that block), whitespace, a hyphen or an apostrophe, and no character is a
digit; the specification's example strings behave as listed. -/
theorem c7_amended :
    (∀ s : String, validateName s = true ↔
       ((jsTrim s).data ≠ [] ∧
        (∀ c ∈ (jsTrim s).data, latin1NameChar c = true) ∧
        (∀ c ∈ (jsTrim s).data, isDigitChar c = false))) ∧
    validateName "O'Brien" = true ∧ validateName "Mary-Jane" = true ∧
    validateName "José" = true ∧ validateName "John123" = false ∧
    validateName "John@Doe" = false := by
  refine ⟨?_, by decide, by decide, by decide, by decide, by decide⟩
  intro s
  unfold validateName
  by_cases h : s = ""
  · subst h
    decide
  · have hie : s.isEmpty = false := by
      rw [Bool.eq_false_iff]
      intro hh
      exact h ((String.isEmpty_iff s).mp hh)
    rw [hie]
    simp only [Bool.false_eq_true, if_false]
    by_cases h2 : (jsTrim s).data = []
    · have : (jsTrim s).isEmpty = true := (string_isEmpty_data (jsTrim s)).mpr h2
      simp [this, h2]
    · have : (jsTrim s).isEmpty = false := by
        rw [Bool.eq_false_iff]
        intro hh
        exact h2 ((string_isEmpty_data (jsTrim s)).mp hh)
      simp only [this, Bool.false_eq_true, if_false, Bool.and_eq_true,
        List.all_eq_true, Bool.not_eq_true', List.any_eq_false]
      constructor
      · rintro ⟨ha, hb⟩
        exact ⟨h2, ha, fun c hc => by simpa using hb c hc⟩
      · rintro ⟨_, ha, hb⟩
        exact ⟨ha, fun c hc => by simpa using hb c hc⟩

/-- C8 amended: the export selects exactly the orders passing every active
filter with AND semantics — creation timestamp at or after the start date's
00:00:00 when a start date is set, at or before the end date's 23:59:59.000
when an end date is set (timestamps in the final 999 ms of the end date are
excluded), and case-insensitive medication substring match when the filter
text is non-blank; the medication examples behave as the specification
lists. -/
theorem c8_amended :
    (∀ (fl : ExportFilters) (orders : List (Nat × OrderDoc)),
       exportFilter fl orders = orders.filter fun od =>
         (match fl.startDate with
          | none => true
          | some d => decide (dayStartMs d ≤ od.2.timestamp)) &&
         (match fl.endDate with
          | none => true
          | some d => decide (od.2.timestamp ≤ endOfDayMs d)) &&
         (if !fl.medFilter.isEmpty && !(jsTrim fl.medFilter).isEmpty then
            jsIncludes (jsToLower od.2.medicationName) (jsToLower fl.medFilter)
          else true)) ∧
    jsIncludes (jsToLower "Privigen") (jsToLower "priv") = true ∧
    jsIncludes (jsToLower "Albuterol") (jsToLower "priv") = false := by
  refine ⟨?_, by decide, by decide⟩
  intro fl orders
  unfold exportFilter
  dsimp only
  cases hs : fl.startDate <;> cases he : fl.endDate <;>
    by_cases hm : (!fl.medFilter.isEmpty && !(jsTrim fl.medFilter).isEmpty) = true <;>
      simp [hm, List.filter_filter, Bool.and_assoc, Bool.and_comm, Bool.and_left_comm]

theorem validateField_req (n v : String) (h : validateField n v = "") :
    v.isEmpty = false := by
  by_cases hv : v = ""
  · subst hv
    unfold validateField at h
    rw [if_pos (by decide)] at h
    exact absurd h (by decide)
  · rw [Bool.eq_false_iff]
    intro hh
    exact hv ((String.isEmpty_iff v).mp hh)

theorem validateField_mrn (v : String) (h : validateField "patientMRN" v = "") :
    digitsLen 6 v = true := by
  by_cases hd : digitsLen 6 v = true
  · exact hd
  · exfalso
    have hd' : digitsLen 6 v = false := by
      rwa [Bool.not_eq_true] at hd
    unfold validateField at h
    by_cases he : (jsTrim v).isEmpty = true
    · rw [if_pos he] at h
      exact absurd h (by decide)
    · rw [if_neg he, if_neg (by simp), if_pos (by simp [hd'])] at h
      exact absurd h (by decide)

theorem validateField_npi (v : String) (h : validateField "providerNPI" v = "") :
    digitsLen 10 v = true := by
  by_cases hd : digitsLen 10 v = true
  · exact hd
  · exfalso
    have hd' : digitsLen 10 v = false := by
      rwa [Bool.not_eq_true] at hd
    unfold validateField at h
    by_cases he : (jsTrim v).isEmpty = true
    · rw [if_pos he] at h
      exact absurd h (by decide)
    · rw [if_neg he, if_neg (by simp), if_neg (by simp), if_neg (by simp),
          if_pos (by simp [hd'])] at h
      exact absurd h (by decide)

theorem submitValidation_fields (f : FormData)
    (hval : submitValidationErrors f = []) :
    ∀ n ∈ requiredFields, validateField n (fieldValue f n) = "" := by
  intro n hn
  have hnone := (List.filterMap_eq_nil_iff.mp hval) n hn
  dsimp only at hnone
  by_cases hb : validateField n (fieldValue f n) = ""
  · exact hb
  · rw [if_neg (by simpa using hb)] at hnone
    exact absurd hnone (by simp)

theorem checkDup_query_eq (f : FormData) (st : Store) :
    ((st.orders.filter fun od =>
        od.2.patientMRN == f.patientMRN &&
        od.2.medicationName == f.medicationName).find? fun od =>
       od.2.primaryDiagnosis == f.primaryDiagnosis &&
       od.2.providerNPI == f.providerNPI) = checkForExactDuplicate f st := rfl

/-- C5: when an existing order shares MRN, medication name, primary
diagnosis and provider NPI with a validated submission, the duplicate
detector's output contains the non-blocking order warning (severity
`warning`, message naming the prior order's date), and — absent blocking
errors — pressing submit yields the duplicate prompt rather than
persisting the order. -/
theorem c5_exact_duplicate_warns_and_prompts (st : Store) (f : FormData)
    (i : Nat) (o : OrderDoc) (plan : Option String) (now : Nat) (ws : List Warning)
    (hmem : (i, o) ∈ st.orders)
    (hmrn : o.patientMRN = f.patientMRN)
    (hmed : o.medicationName = f.medicationName)
    (hdiag : o.primaryDiagnosis = f.primaryDiagnosis)
    (hnpi : o.providerNPI = f.providerNPI)
    (hval : submitValidationErrors f = [])
    (hws : checkDuplicates f st = some ws)
    (hnoerr : ws.filter (fun w => w.severity == Severity.error) = []) :
    ∃ m : Nat × OrderDoc,
      checkForExactDuplicate f st = some m ∧
      (⟨WarnType.order, Severity.warning, dupWarningMessage m.2.timestamp⟩ : Warning) ∈ ws ∧
      handleSubmit f ws st plan now = SubmitOutcome.duplicatePrompt m := by
  have hve := submitValidation_fields f hval
  have hMRN := validateField_mrn f.patientMRN (hve "patientMRN" (by decide))
  have hNPI := validateField_npi f.providerNPI (hve "providerNPI" (by decide))
  have hL6 : (f.patientMRN.length == 6) = true := by
    have h' := hMRN
    unfold digitsLen at h'
    rw [Bool.and_eq_true] at h'
    exact h'.1
  have hL10 : (f.providerNPI.length == 10) = true := by
    have h' := hNPI
    unfold digitsLen at h'
    rw [Bool.and_eq_true] at h'
    exact h'.1
  have hF1 : f.patientMRN.isEmpty = false :=
    validateField_req "patientMRN" f.patientMRN (hve "patientMRN" (by decide))
  have hF4 : f.medicationName.isEmpty = false :=
    validateField_req "medicationName" f.medicationName (hve "medicationName" (by decide))
  have hF5 : f.primaryDiagnosis.isEmpty = false :=
    validateField_req "primaryDiagnosis" f.primaryDiagnosis (hve "primaryDiagnosis" (by decide))
  have hF6 : f.providerNPI.isEmpty = false :=
    validateField_req "providerNPI" f.providerNPI (hve "providerNPI" (by decide))
  have hF7 : f.referringProvider.isEmpty = false :=
    validateField_req "referringProvider" f.referringProvider (hve "referringProvider" (by decide))
  have hfs : (checkForExactDuplicate f st).isSome := by
    unfold checkForExactDuplicate
    apply List.find?_isSome.mpr
    refine ⟨(i, o), List.mem_filter.mpr ⟨hmem, by simp [hmrn, hmed]⟩, by simp [hdiag, hnpi]⟩
  obtain ⟨m, hm⟩ := Option.isSome_iff_exists.mp hfs
  refine ⟨m, hm, ?_, ?_⟩
  · unfold checkDuplicates at hws
    rw [checkDup_query_eq, hm] at hws
    simp only [hF1, hF4, hF5, hF6, hF7, hL6, hL10, Bool.not_false, Bool.and_true,
      Bool.true_and, Bool.and_self, if_true] at hws
    split at hws
    · split at hws
      · exact absurd hws (by simp)
      · rw [Option.some_inj] at hws
        subst hws
        simp
    · rw [Option.some_inj] at hws
      subst hws
      simp
  · unfold handleSubmit
    dsimp only
    rw [hval]
    simp only [List.isEmpty_nil, Bool.not_true, Bool.false_eq_true, if_false]
    rw [hnoerr]
    simp only [List.isEmpty_nil, Bool.not_true, Bool.false_eq_true, if_false]
    rw [hm]

/-- Witness for C5: resubmitting the four key fields of the order stored in
`dupStore` yields the duplicate warning and the duplicate prompt. -/
theorem c5_witness :
    ∃ m : Nat × OrderDoc,
      checkForExactDuplicate baseForm dupStore = some m ∧
      (⟨WarnType.order, Severity.warning, dupWarningMessage m.2.timestamp⟩ : Warning) ∈
        [(⟨WarnType.order, Severity.warning, dupWarningMessage 0⟩ : Warning)] ∧
      handleSubmit baseForm [⟨WarnType.order, Severity.warning, dupWarningMessage 0⟩]
        dupStore (some "plan") 7 =
        SubmitOutcome.duplicatePrompt m :=
  c5_exact_duplicate_warns_and_prompts dupStore baseForm 0
    (newOrderDoc baseForm "Plan A" 0) (some "plan") 7
    [⟨WarnType.order, Severity.warning, dupWarningMessage 0⟩]
    (by decide) (by decide) (by decide) (by decide) (by decide)
    (by decide) (by decide) (by decide)
